import Mathlib

/-!
Verification of the cache-backed retrieval core of the reswirl repository
(src/reswirl/inventory.py), as a shallow embedding in Lean 4.

The embedding models:
  - the record schema built by Inventory._fetch_from_github,
  - the on-disk cache file and Inventory._read_cache / Inventory._write_cache,
  - the control flow of Inventory._retrieve_repos with explicit state passing
    (the cache file state before and after the call) and a counter of
    invocations of the remote adapter,
  - the per-entry filtering logic of Inventory.walk_file_trees.

Python exceptions are modelled with Except.  One library fact is part of the
model: polars read_ndjson raises a polars ComputeError (a subclass of
Exception, not of OSError) when the file content is malformed NDJSON, while
file-system failures (missing permissions, I/O faults) raise OSError.
-/

namespace Reswirl

/-- One row of the repository table, with exactly the fields that
Inventory._fetch_from_github projects out of a raw GitHub repository
object (inventory.py lines 111-124). -/
structure RepoRecord where
  name : String
  default_branch : String
  description : String
  archived : Bool
  is_fork : Bool
  issues : Int
  stars : Int
  forks : Int
  size : Int
deriving Repr, DecidableEq

/-- State of the per-subject cache file on disk, as far as _read_cache can
observe it: the content parses cleanly to a record list, or reading it
raises an OSError (e.g. permission denied), or the content is malformed
NDJSON so that polars read_ndjson raises a ComputeError. -/
inductive CacheFile where
  | wellFormed (records : List RepoRecord)
  | ioError
  | malformed
deriving Repr, DecidableEq

/-- A Python exception escaping the retrieval core: either the exception
raised by _fetch_from_github (carrying its message), or the polars
ComputeError raised by read_ndjson on malformed cache content. -/
inductive PyError where
  | remote (msg : String)
  | computeError
deriving Repr, DecidableEq

/-- Inventory._read_cache (inventory.py lines 128-138).  Returns ok none
when the file is absent (not is_file) and when reading raises an OSError
(the only exception class the function catches); a malformed file makes
read_ndjson raise a ComputeError, which is not an OSError and therefore
propagates to the caller. -/
def read_cache : Option CacheFile → Except PyError (Option (List RepoRecord))
  | none => .ok none
  | some (.wellFormed rs) => .ok (some rs)
  | some .ioError => .ok none
  | some .malformed => .error .computeError

/-- Inventory._write_cache (inventory.py lines 140-147).  write_ndjson
either replaces the cache file with a well-formed serialization of the
data, or raises an OSError (disk full, permission denied), which is caught
and logged; the flag says whether the write fails.  On failure the cache
file keeps its previous state. -/
def write_cache (data : List RepoRecord) (writeFails : Bool)
    (cache : Option CacheFile) : Option CacheFile :=
  if writeFails then cache else some (.wellFormed data)

/-- Outcome of one _retrieve_repos call: the value returned or the
exception raised, the cache file state after the call, and how many times
_fetch_from_github was invoked. -/
structure RetrieveResult where
  result : Except PyError (List RepoRecord)
  cacheAfter : Option CacheFile
  remoteCalls : Nat
deriving Repr

/-- The try/except tail of Inventory._retrieve_repos (inventory.py lines
90-101): invoke _fetch_from_github once; on success write the cache
(best effort) and return the data; on any exception fall back to
_read_cache, returning the cached data when that yields some, re-raising
the original remote exception when it yields none, and propagating the
ComputeError when the fallback read itself raises. -/
def retrieve_fetch (remote : Except String (List RepoRecord))
    (writeFails : Bool) (cache : Option CacheFile) : RetrieveResult :=
  match remote with
  | .ok repos_data =>
      { result := .ok repos_data
        cacheAfter := write_cache repos_data writeFails cache
        remoteCalls := 1 }
  | .error e =>
      match read_cache cache with
      | .error e2 => { result := .error e2, cacheAfter := cache, remoteCalls := 1 }
      | .ok (some rs) => { result := .ok rs, cacheAfter := cache, remoteCalls := 1 }
      | .ok none =>
          { result := .error (.remote e), cacheAfter := cache, remoteCalls := 1 }

/-- Inventory._retrieve_repos (inventory.py lines 78-101).  The remote
adapter is passed as the value its single possible invocation would
produce: ok with the fetched records, or error with the exception message
_fetch_from_github raises. -/
def retrieve_repos (use_cache force_refresh : Bool)
    (remote : Except String (List RepoRecord)) (writeFails : Bool)
    (cache : Option CacheFile) : RetrieveResult :=
  if use_cache && !force_refresh then
    match read_cache cache with
    | .error e => { result := .error e, cacheAfter := cache, remoteCalls := 0 }
    | .ok (some rs) => { result := .ok rs, cacheAfter := cache, remoteCalls := 0 }
    | .ok none => retrieve_fetch remote writeFails cache
  else retrieve_fetch remote writeFails cache

/-- A raw repository object as returned by the GitHub client, restricted
to the attributes Inventory._fetch_from_github reads.  description is
none when the repository has no description (the attribute is Python
None). -/
structure RawRepo where
  name : String
  default_branch : String
  description : Option String
  archived : Bool
  fork : Bool
  open_issues : Int
  stargazers_count : Int
  forks_count : Int
  size : Int
deriving Repr, DecidableEq

/-- The Python expression (x or "") on an optional string: both None and
the empty string are falsy, so either yields the empty string; any other
string is returned unchanged. -/
def orEmpty : Option String → String
  | none => ""
  | some s => if s = "" then "" else s

/-- The per-repository dictionary built inside the list comprehension of
Inventory._fetch_from_github (inventory.py lines 112-122). -/
def normalizeRepo (repo : RawRepo) : RepoRecord :=
  { name := repo.name
    default_branch := repo.default_branch
    description := orEmpty repo.description
    archived := repo.archived
    is_fork := repo.fork
    issues := repo.open_issues
    stars := repo.stargazers_count
    forks := repo.forks_count
    size := repo.size }

/-- The record list Inventory._fetch_from_github builds from the remote
repository listing (the lazy branch collects to the same rows). -/
def fetch_from_github (repos : List RawRepo) : List RepoRecord :=
  repos.map normalizeRepo

/-- One glob match inside a repository, as walk_file_trees observes it
through UPath: its joined path, whether it is a directory, and the size
its stat call reports. -/
structure FsEntry where
  path : String
  is_dir : Bool
  st_size : Int
deriving Repr, DecidableEq

/-- One row of the table walk_file_trees returns (inventory.py lines
209-216). -/
structure FileRow where
  repository_name : String
  file_path : String
  is_directory : Bool
  file_size_bytes : Int
deriving Repr, DecidableEq

/-- The body of the glob loop of Inventory.walk_file_trees (inventory.py
lines 197-216) for one match p: a directory is recorded with size 0; a
file is recorded with its stat size unless skip_larger_than_mb is set and
the size strictly exceeds skip_larger_than_mb * 1048576, in which case
the match is skipped (none). -/
def walkEntry (repo_name : String) (skip_larger_than_mb : Option Int)
    (p : FsEntry) : Option FileRow :=
  if p.is_dir then
    some { repository_name := repo_name, file_path := p.path,
           is_directory := true, file_size_bytes := 0 }
  else
    match skip_larger_than_mb with
    | some mb =>
        if p.st_size > mb * 1048576 then none
        else
          some { repository_name := repo_name, file_path := p.path,
                 is_directory := false, file_size_bytes := p.st_size }
    | none =>
        some { repository_name := repo_name, file_path := p.path,
               is_directory := false, file_size_bytes := p.st_size }

/-- Inventory.walk_file_trees over an inventory of repositories, each
given with the list of glob matches its UPath produces: the outer loop
runs over the repositories, the inner loop over the matches, appending
the rows walkEntry keeps. -/
def walk_file_trees (repos : List (String × List FsEntry))
    (skip_larger_than_mb : Option Int) : List FileRow :=
  repos.flatMap fun r => r.2.filterMap (walkEntry r.1 skip_larger_than_mb)

/-- A sample repository record used in concrete evaluations, matching the
end-to-end scenario of the specification. -/
def sampleRecord : RepoRecord :=
  { name := "repo1", default_branch := "main", description := "",
    archived := false, is_fork := false, issues := 0, stars := 5,
    forks := 1, size := 100 }

/-- The try/except tail of _retrieve_repos invokes the remote adapter
exactly once, whatever the outcome. -/
theorem retrieve_fetch_remoteCalls (remote : Except String (List RepoRecord))
    (w : Bool) (c : Option CacheFile) :
    (retrieve_fetch remote w c).remoteCalls = 1 := by
  cases remote with
  | ok d => rfl
  | error e =>
    cases c with
    | none => rfl
    | some cf => cases cf <;> rfl

/-- Whenever a _retrieve_repos call did invoke the remote adapter, the
whole call behaves as its try/except tail: the cache-read-first branch
did not return. -/
theorem retrieve_eq_fetch (u f w : Bool)
    (remote : Except String (List RepoRecord)) (c : Option CacheFile)
    (h : (retrieve_repos u f remote w c).remoteCalls = 1) :
    retrieve_repos u f remote w c = retrieve_fetch remote w c := by
  unfold retrieve_repos at h ⊢
  by_cases hc : (u && !f) = true
  · rw [if_pos hc] at h ⊢
    cases c with
    | none => rfl
    | some cf =>
      cases cf with
      | wellFormed rs => simp [read_cache] at h
      | ioError => rfl
      | malformed => simp [read_cache] at h
  · rw [if_neg hc] at h ⊢

/-- C1: with use_cache = true, force_refresh = false and a readable,
well-formed cache file, _retrieve_repos returns exactly the cached record
set, leaves the cache file untouched, and never invokes
_fetch_from_github. -/
theorem retrieve_cached_no_remote (rs : List RepoRecord)
    (remote : Except String (List RepoRecord)) (w : Bool) :
    retrieve_repos true false remote w (some (.wellFormed rs)) =
      { result := .ok rs, cacheAfter := some (.wellFormed rs),
        remoteCalls := 0 } := rfl

/-- C2: when _fetch_from_github raises inside _retrieve_repos (the remote
adapter was invoked and its value is an error), a fallback cache read that
yields a record set makes the call return that cached set, while a
fallback cache read that yields none makes the call re-raise the original
remote exception unchanged. -/
theorem retrieve_remote_failure_fallback (u f w : Bool) (e : String)
    (c : Option CacheFile)
    (h : (retrieve_repos u f (.error e) w c).remoteCalls = 1) :
    (∀ rs, c = some (.wellFormed rs) →
        (retrieve_repos u f (.error e) w c).result = .ok rs) ∧
    (read_cache c = .ok none →
        (retrieve_repos u f (.error e) w c).result = .error (.remote e)) := by
  rw [retrieve_eq_fetch u f w (.error e) c h]
  constructor
  · rintro rs rfl
    rfl
  · intro hrc
    show (retrieve_fetch (.error e) w c).result = .error (.remote e)
    unfold retrieve_fetch
    rw [hrc]

/-- Witness for C2 at concrete inputs: a failing remote with a well-formed
cache returns the cached rows, and a failing remote with no cache file
re-raises the remote error. -/
theorem retrieve_remote_failure_fallback_witness :
    (retrieve_repos false false (.error "boom") false
        (some (.wellFormed [sampleRecord]))).result = .ok [sampleRecord] ∧
    (retrieve_repos false false (.error "boom") false none).result =
      .error (.remote "boom") :=
  ⟨(retrieve_remote_failure_fallback false false false "boom"
      (some (.wellFormed [sampleRecord])) rfl).1 [sampleRecord] rfl,
   (retrieve_remote_failure_fallback false false false "boom" none rfl).2 rfl⟩

/-- C4: with force_refresh = true, _retrieve_repos always invokes the
remote adapter, whatever use_cache and the cache state are: the whole call
is exactly its try/except tail, so the cache-read-first branch is skipped
and the fallback-on-failure branch still applies. -/
theorem retrieve_force_refresh_always_remote (u w : Bool)
    (remote : Except String (List RepoRecord)) (c : Option CacheFile) :
    (retrieve_repos u true remote w c).remoteCalls = 1 ∧
    retrieve_repos u true remote w c = retrieve_fetch remote w c := by
  have h2 : retrieve_repos u true remote w c = retrieve_fetch remote w c := by
    cases u <;> rfl
  constructor
  · rw [h2]
    exact retrieve_fetch_remoteCalls remote w c
  · exact h2

/-- C9: the fallback-to-cache path on remote failure does not consult
use_cache: even with use_cache = false (and any force_refresh), a failing
remote fetch with a readable, well-formed cache file returns the cached
record set instead of raising. -/
theorem retrieve_fallback_ignores_use_cache (rs : List RepoRecord)
    (f w : Bool) (e : String) :
    retrieve_repos false f (.error e) w (some (.wellFormed rs)) =
      { result := .ok rs, cacheAfter := some (.wellFormed rs),
        remoteCalls := 1 } := rfl

/-- C3 fails on the code: _read_cache catches only OSError, so the
ComputeError that polars read_ndjson raises on malformed NDJSON content
propagates to the caller instead of yielding none; on the cache-first
path _retrieve_repos then raises it instead of fetching.  This theorem
evaluates the model at that failing input. -/
theorem read_cache_malformed_raises :
    read_cache (some .malformed) = .error .computeError ∧
    (retrieve_repos true false (.ok [sampleRecord]) false
        (some .malformed)).result = .error .computeError :=
  ⟨rfl, rfl⟩

/-- C5: when _retrieve_repos did fetch from the remote (the adapter is
invoked and succeeds) and the cache write itself does not fail, the call
returns the fetched record set, the written cache file reads back as
exactly that record set, and a subsequent call with use_cache = true and
force_refresh = false returns the identical record set whatever its own
remote adapter would do. -/
theorem retrieve_round_trip (rs : List RepoRecord) (c : Option CacheFile)
    (u f : Bool) (remote2 : Except String (List RepoRecord)) (w2 : Bool)
    (h : (retrieve_repos u f (.ok rs) false c).remoteCalls = 1) :
    (retrieve_repos u f (.ok rs) false c).result = .ok rs ∧
    read_cache (retrieve_repos u f (.ok rs) false c).cacheAfter =
      .ok (some rs) ∧
    (retrieve_repos true false remote2 w2
        (retrieve_repos u f (.ok rs) false c).cacheAfter).result = .ok rs := by
  rw [retrieve_eq_fetch u f false (.ok rs) c h]
  exact ⟨rfl, rfl, rfl⟩

/-- Witness for C5 at concrete inputs: fetch into an empty cache, then a
second cache-first call returns the fetched row even though its own
remote would fail. -/
theorem retrieve_round_trip_witness :
    (retrieve_repos true false (.error "down") true
        (retrieve_repos false false (.ok [sampleRecord]) false
          none).cacheAfter).result = .ok [sampleRecord] :=
  (retrieve_round_trip [sampleRecord] none false false
    (.error "down") true rfl).2.2

/-- C6: a failing cache write (an OSError such as disk full or permission
denied, caught inside _write_cache) never makes _retrieve_repos fail:
when the remote fetch happened and succeeded, the call still returns the
freshly fetched record set, and the cache file keeps its previous
state. -/
theorem write_failure_not_propagated (rs : List RepoRecord) (u f : Bool)
    (c : Option CacheFile)
    (h : (retrieve_repos u f (.ok rs) true c).remoteCalls = 1) :
    (retrieve_repos u f (.ok rs) true c).result = .ok rs ∧
    (retrieve_repos u f (.ok rs) true c).cacheAfter = c := by
  rw [retrieve_eq_fetch u f true (.ok rs) c h]
  exact ⟨rfl, rfl⟩

/-- Witness for C6 at a concrete input: the fetched row is returned even
though writing the cache fails. -/
theorem write_failure_not_propagated_witness :
    (retrieve_repos false false (.ok [sampleRecord]) true none).result =
      .ok [sampleRecord] :=
  (write_failure_not_propagated [sampleRecord] false false none rfl).1

/-- A glob-loop row kept under a size threshold and marked as a file has
its stat size, bounded by the threshold. -/
theorem walkEntry_size_bound (rn : String) (mb : Int) (p : FsEntry)
    (row : FileRow) (h : walkEntry rn (some mb) p = some row)
    (hd : row.is_directory = false) :
    row.file_size_bytes ≤ mb * 1048576 := by
  unfold walkEntry at h
  by_cases hdir : p.is_dir = true
  · rw [if_pos hdir] at h
    injection h with h2
    rw [← h2] at hd
    simp at hd
  · rw [if_neg hdir] at h
    change (if p.st_size > mb * 1048576 then none
        else some { repository_name := rn, file_path := p.path,
                    is_directory := false,
                    file_size_bytes := p.st_size }) = some row at h
    by_cases hgt : p.st_size > mb * 1048576
    · rw [if_pos hgt] at h
      exact absurd h (by simp)
    · rw [if_neg hgt] at h
      injection h with h2
      rw [← h2]
      exact le_of_not_lt hgt

/-- A glob-loop row produced from a directory match carries size 0. -/
theorem walkEntry_dir_size (rn : String) (skip : Option Int) (p : FsEntry)
    (row : FileRow) (h : walkEntry rn skip p = some row)
    (hd : row.is_directory = true) : row.file_size_bytes = 0 := by
  unfold walkEntry at h
  by_cases hdir : p.is_dir = true
  · rw [if_pos hdir] at h
    injection h with h2
    rw [← h2]
  · rw [if_neg hdir] at h
    cases skip with
    | some mb =>
      change (if p.st_size > mb * 1048576 then none
          else some { repository_name := rn, file_path := p.path,
                      is_directory := false,
                      file_size_bytes := p.st_size }) = some row at h
      by_cases hgt : p.st_size > mb * 1048576
      · rw [if_pos hgt] at h
        exact absurd h (by simp)
      · rw [if_neg hgt] at h
        injection h with h2
        rw [← h2] at hd
        simp at hd
    | none =>
      injection h with h2
      rw [← h2] at hd
      simp at hd

/-- C7: with skip_larger_than_mb set to mb, every non-directory row in
the table walk_file_trees returns has file_size_bytes at most
mb * 1048576, and a non-directory match whose stat size strictly exceeds
that byte threshold is omitted by the glob-loop body. -/
theorem walk_skip_larger_than (repos : List (String × List FsEntry))
    (mb : Int) :
    (∀ row ∈ walk_file_trees repos (some mb),
        row.is_directory = false → row.file_size_bytes ≤ mb * 1048576) ∧
    (∀ rn p, p.is_dir = false → p.st_size > mb * 1048576 →
        walkEntry rn (some mb) p = none) := by
  constructor
  · intro row hmem hd
    unfold walk_file_trees at hmem
    rw [List.mem_flatMap] at hmem
    obtain ⟨r, _, hr⟩ := hmem
    rw [List.mem_filterMap] at hr
    obtain ⟨p, _, hp⟩ := hr
    exact walkEntry_size_bound r.1 mb p row hp hd
  · intro rn p hdir hgt
    unfold walkEntry
    rw [hdir]
    simp [hgt]

/-- Witness for C7 at concrete inputs: with a 1 MB threshold a 5-byte
file row is kept and bounded, and a match of 2000000 bytes is omitted. -/
theorem walk_skip_larger_than_witness :
    ({ repository_name := "r", file_path := "a.txt", is_directory := false,
       file_size_bytes := 5 } : FileRow).file_size_bytes ≤ 1 * 1048576 ∧
    walkEntry "r" (some 1)
      { path := "big.bin", is_dir := false, st_size := 2000000 } = none :=
  ⟨(walk_skip_larger_than
      [("r", [{ path := "a.txt", is_dir := false, st_size := 5 }])] 1).1
      { repository_name := "r", file_path := "a.txt", is_directory := false,
        file_size_bytes := 5 } (by decide) rfl,
   (walk_skip_larger_than [] 1).2 "r"
      { path := "big.bin", is_dir := false, st_size := 2000000 }
      rfl (by decide)⟩

/-- C10: in every table walk_file_trees returns, a row marked as a
directory has file_size_bytes 0, and a directory match is never excluded
by the size threshold: the glob-loop body keeps it whatever
skip_larger_than_mb is. -/
theorem walk_directory_rows (repos : List (String × List FsEntry))
    (skip : Option Int) :
    (∀ row ∈ walk_file_trees repos skip,
        row.is_directory = true → row.file_size_bytes = 0) ∧
    (∀ rn p, p.is_dir = true →
        walkEntry rn skip p =
          some { repository_name := rn, file_path := p.path,
                 is_directory := true, file_size_bytes := 0 }) := by
  constructor
  · intro row hmem hd
    unfold walk_file_trees at hmem
    rw [List.mem_flatMap] at hmem
    obtain ⟨r, _, hr⟩ := hmem
    rw [List.mem_filterMap] at hr
    obtain ⟨p, _, hp⟩ := hr
    exact walkEntry_dir_size r.1 skip p row hp hd
  · intro rn p hdir
    unfold walkEntry
    rw [hdir]
    rfl

/-- Witness for C10 at concrete inputs: a directory row has size 0, and a
directory of stat size 7 is kept even under a 0 MB threshold. -/
theorem walk_directory_rows_witness :
    ({ repository_name := "r", file_path := "d", is_directory := true,
       file_size_bytes := 0 } : FileRow).file_size_bytes = 0 ∧
    walkEntry "r" (some 0) { path := "d", is_dir := true, st_size := 7 } =
      some { repository_name := "r", file_path := "d",
             is_directory := true, file_size_bytes := 0 } :=
  ⟨(walk_directory_rows
      [("r", [{ path := "d", is_dir := true, st_size := 7 }])] (some 0)).1
      { repository_name := "r", file_path := "d", is_directory := true,
        file_size_bytes := 0 } (by decide) rfl,
   (walk_directory_rows [] (some 0)).2 "r"
      { path := "d", is_dir := true, st_size := 7 } rfl⟩

/-- The Python falsy-or on an optional string agrees with
default-on-absence: the string itself when present, empty when absent. -/
theorem orEmpty_getD (d : Option String) : orEmpty d = d.getD "" := by
  cases d with
  | none => rfl
  | some s =>
    show (if s = "" then "" else s) = s
    split
    next h => exact h.symm
    next => rfl

/-- C8: in the record set _fetch_from_github produces, each description
field is the remote description when present and the empty string when
the remote description is absent. -/
theorem fetch_description_default (repos : List RawRepo) :
    (fetch_from_github repos).map RepoRecord.description =
      repos.map fun repo => repo.description.getD "" := by
  induction repos with
  | nil => rfl
  | cons r rest ih =>
    show orEmpty r.description
          :: (fetch_from_github rest).map RepoRecord.description
        = r.description.getD ""
          :: rest.map fun repo => repo.description.getD ""
    rw [orEmpty_getD, ih]

end Reswirl
